import Mathlib

/-!
Verification of the OIDC callback reconciliation logic of
`src/plugins/oidc/server/auth/oidcRouter.ts` (`createOIDCRouter`'s passport
verify callback), as a shallow embedding in Lean.

JavaScript conventions used throughout the embedding:
* a claim value that may be absent is an `Option String`; `none` models
  `null`/`undefined` (nullish), `some ""` models a present empty string;
* `a ?? b` (nullish coalescing) is `Option.orElse`, written `a <|> b`;
* `a || b` and `a ? a : b` select on JS truthiness of a string, where the
  empty string is falsy: see `truthy` and `jsOr`.
-/

/-- Decidable equality of `Except` results, used to evaluate the embedding
on concrete inputs. -/
instance {ε α : Type} [DecidableEq ε] [DecidableEq α] : DecidableEq (Except ε α)
  | .error e, .error f =>
    if h : e = f then isTrue (by rw [h]) else isFalse (by intro q; cases q; exact h rfl)
  | .error _, .ok _ => isFalse (by intro q; cases q)
  | .ok _, .error _ => isFalse (by intro q; cases q)
  | .ok a, .ok b =>
    if h : a = b then isTrue (by rw [h]) else isFalse (by intro q; cases q; exact h rfl)

namespace OIDC

/-- A claim source (userinfo response body or decoded ID token):
a heterogeneous mapping of claim name to value. -/
abbrev Claims := List (String × String)

/-- Property access `obj.key` / `get(obj, key)` on a claim mapping. -/
def getClaim (c : Claims) (key : String) : Option String :=
  (c.find? (fun kv => kv.1 == key)).map (·.2)

/-- JS truthiness of a possibly-absent string: `null`, `undefined`
and the empty string are falsy. -/
def truthy : Option String → Bool
  | none => false
  | some s => s != ""

/-- JS `a || b` (and `a ? a : b`): `a` when truthy, otherwise `b`. -/
def jsOr (a b : Option String) : Option String :=
  if truthy a then a else b

/-- Team record resolved from the request context (`getTeamFromContext`). -/
structure Team where
  id : String
deriving Repr, DecidableEq

/-- A stored `AuthenticationProvider` row: the columns consulted by
the router's `findOne` queries. -/
structure AuthProviderRec where
  name : String
  teamId : String
  providerId : String
deriving Repr, DecidableEq

/-- Errors thrown by the verify callback.  `authenticationError` is
`AuthenticationError(message)`, `oidcMalformedUserInfoError` is
`OIDCMalformedUserInfoError()`; `upstreamError` models a failure thrown by
the userinfo `request`, and `provisionerError` a failure thrown by the
external `accountProvisioner`. -/
inductive OIDCError where
  | authenticationError (message : String)
  | oidcMalformedUserInfoError
  | upstreamError (message : String)
  | provisionerError (message : String)
deriving Repr, DecidableEq

/-- The message of the missing-email `AuthenticationError`. -/
def emailMissingMessage : String :=
  "An email field was not returned in the profile or id_token parameter, but is required."

/-- The message of the missing-name `AuthenticationError`, interpolating
`env.OIDC_USERNAME_CLAIM` and `endpoints.userInfoURL`. -/
def nameMissingMessage (usernameClaim userInfoURL : String) : String :=
  s!"Neither a {usernameClaim}, \"name\" or \"username\" was returned in the profile loaded from {userInfoURL}, but at least one is required."

/-- The message of the missing-user-id `AuthenticationError`, interpolating
`endpoints.userInfoURL`. -/
def subjectMissingMessage (userInfoURL : String) : String :=
  s!"A user id was not returned in the profile loaded from {userInfoURL}, searched in \"sub\" and \"id\" fields."

/-- Outcome of `JWT.decode(params.id_token)` as observed by the router:
the call may throw, return `null`, return a non-object (e.g. a string
payload), or return a claims object. -/
inductive JwtDecodeResult where
  | decodeError (message : String)
  | decodedNull
  | decodedNonObject
  | decodedObject (claims : Claims)
deriving Repr, DecidableEq

/-- The IIFE around `JWT.decode`: any throw, `null`, or non-object result
degrades to the empty claim mapping `{}`. -/
def tokenClaims : JwtDecodeResult → Claims
  | .decodedObject claims => claims
  | _ => []

/-- JS `profile.email ?? token.email ?? null` (line 114). -/
def emailOf (profile token : Claims) : Option String :=
  getClaim profile "email" <|> getClaim token "email"

/-- JS `get(profile, env.OIDC_USERNAME_CLAIM) ?? get(token, env.OIDC_USERNAME_CLAIM)` (lines 158-160). -/
def usernameOf (usernameClaim : String) (profile token : Claims) : Option String :=
  getClaim profile usernameClaim <|> getClaim token usernameClaim

/-- JS `profile.name || username || profile.username` (line 161). -/
def nameOf (usernameClaim : String) (profile token : Claims) : Option String :=
  jsOr (getClaim profile "name")
    (jsOr (usernameOf usernameClaim profile token) (getClaim profile "username"))

/-- JS `profile.sub ? profile.sub : profile.id` (line 162). -/
def profileIdOf (profile : Claims) : Option String :=
  jsOr (getClaim profile "sub") (getClaim profile "id")

/-- Splitting a character list at every occurrence of a separator character
(used by the spec-modelled string helpers below; `acc` holds the current
segment, reversed). -/
def splitOnCharAux (c : Char) : List Char → List Char → List (List Char)
  | [], acc => [acc.reverse]
  | x :: xs, acc =>
    if x == c then acc.reverse :: splitOnCharAux c xs []
    else splitOnCharAux c xs (x :: acc)

/-- Splitting a string at every occurrence of a separator character. -/
def splitOnChar (c : Char) (s : String) : List String :=
  (splitOnCharAux c s.toList []).map String.mk

/-- Modelled from the spec: `isBase64Url` (imported from `@shared/utils/urls`,
whose source is not included under `src/`) detects a Base64-encoded data URL
by its well-known URL-scheme prefix. -/
def isBase64Url (s : String) : Bool :=
  "data:".toList.isPrefixOf s.toList

/-- The avatar filtering step: `avatarUrl = profile.picture`, replaced by
`null` when `profile.picture && isBase64Url(profile.picture)`. -/
def avatarOf (profile : Claims) : Option String :=
  let picture := getClaim profile "picture"
  if truthy picture && isBase64Url (picture.getD "") then none else picture

/-- Modelled from the spec: `parseEmail` (imported from `@shared/utils/email`,
whose source is not included under `src/`) parses an email address into its
local part and its domain; the domain is absent when the address has no `@`
separator. -/
structure EmailParts where
  localPart : Option String
  domain : Option String
deriving Repr, DecidableEq

/-- Modelled from the spec: splitting the email at the `@` separator. -/
def parseEmail (email : String) : EmailParts :=
  match splitOnChar '@' email with
  | [] => ⟨none, none⟩
  | [onlyLocal] => ⟨some onlyLocal, none⟩
  | l :: d :: _ => ⟨some l, some d⟩

/-- Modelled from the spec: `slugifyDomain` (imported from
`@shared/utils/domains`, whose source is not included under `src/`) removes
the top-level domain segment and normalizes the remainder to a slug
(lowercase, segments joined by a separator). -/
def slugifyDomain (domain : String) : String :=
  let segs := splitOnChar '.' domain
  let kept := if segs.length ≤ 1 then segs else segs.dropLast
  String.mk ((String.intercalate "-" kept).toList.map Char.toLower)

/-- Scanning for the `://` scheme separator of a URL. -/
def afterSchemeSep : List Char → Option (List Char)
  | ':' :: '/' :: '/' :: rest => some rest
  | _ :: rest => afterSchemeSep rest
  | [] => none

/-- Modelled from the spec: `new URL(url).hostname` (JS standard library) —
the hostname component of the URL: the part after the scheme separator, up
to the first path, port, query or fragment separator. -/
def urlHostname (url : String) : String :=
  let rest := (afterSchemeSep url.toList).getD url.toList
  String.mk (rest.takeWhile
    (fun c => c != '/' && c != ':' && c != '?' && c != '#'))

/-- The two-step provider lookup (lines 126-141): when a team is known,
`AuthenticationProvider.findOne({name: "oidc", teamId, providerId: domain})
?? AuthenticationProvider.findOne({name: "oidc", teamId})`; `undefined`
otherwise.  The store is modelled as the list of rows, `findOne` returning
the first matching row. -/
def matchesExact (t : Team) (domain : Option String) (p : AuthProviderRec) : Bool :=
  p.name == "oidc" && p.teamId == t.id && some p.providerId == domain

/-- The tenant-wide fallback predicate: any OIDC provider of the team. -/
def matchesTenant (t : Team) (p : AuthProviderRec) : Bool :=
  p.name == "oidc" && p.teamId == t.id

/-- The value of the `authenticationProvider` constant. -/
def lookupProvider (providers : List AuthProviderRec) (team : Option Team)
    (domain : Option String) : Option AuthProviderRec :=
  match team with
  | none => none
  | some t => (providers.find? (matchesExact t domain)) <|> (providers.find? (matchesTenant t))

/-- JS `authenticationProvider?.providerId ?? oidcURL.hostname` (lines 143-146). -/
def providerIdOf (authorizationURL : String) (found : Option AuthProviderRec) : String :=
  ((found.map (·.providerId))).getD (urlHostname authorizationURL)

/-- The canonical identity produced by claim normalization (spec §3). -/
structure CanonicalIdentity where
  email : String
  externalUserId : String
  displayName : String
  username : Option String
  avatarUrl : Option String
deriving Repr, DecidableEq

/-- The Claim Normalizer (spec §4.1): the identity-forming lines of the
verify callback in their order of evaluation — the email fallback and check
(lines 114-120), the username/name/subject derivations and checks
(lines 155-173), and the avatar filtering (lines 175-187). -/
def normalizeIdentity (usernameClaim userInfoURL : String) (profile token : Claims) :
    Except OIDCError CanonicalIdentity :=
  let email := emailOf profile token
  if truthy email = false then
    .error (.authenticationError emailMissingMessage)
  else
    let username := usernameOf usernameClaim profile token
    let name := nameOf usernameClaim profile token
    let profileId := profileIdOf profile
    if truthy name = false then
      .error (.authenticationError (nameMissingMessage usernameClaim userInfoURL))
    else if truthy profileId = false then
      .error (.authenticationError (subjectMissingMessage userInfoURL))
    else
      .ok { email := email.getD ""
            externalUserId := profileId.getD ""
            displayName := name.getD ""
            username := username
            avatarUrl := avatarOf profile }

/-- The static allow-list of userinfo endpoints that require a POST request
(the `usePostMethod` constant, lines 81-84). -/
def usePostMethod : List String :=
  ["https://api.dropboxapi.com/2/openid/userinfo"]

/-- HTTP method of the userinfo fetch. -/
inductive HttpMethod where
  | GET
  | POST
deriving Repr, DecidableEq

/-- JS `usePostMethod.includes(endpoints.userInfoURL) ? "POST" : "GET"` (line 87). -/
def userinfoMethod (userInfoURL : String) : HttpMethod :=
  if usePostMethod.contains userInfoURL then .POST else .GET

/-- The endpoint configuration the router closes over. -/
structure OIDCEndpoints where
  authorizationURL : String
  tokenURL : String
  userInfoURL : String
deriving Repr, DecidableEq

/-- Stages of the verify callback, in the order the code executes them;
a run's trace records which were performed before it returned. -/
inductive Stage where
  | fetch
  | decode
  | emailCheck
  | providerLookup
  | domainCheck
  | subdomainDerive
  | nameCheck
  | subjectCheck
  | avatarFilter
  | provision
deriving Repr, DecidableEq

/-- The result returned by the external `accountProvisioner` on success. -/
structure ProvisionResult where
  user : String
  isNewTeam : Bool
  isNewUser : Bool
deriving Repr, DecidableEq

/-- The argument record passed to `accountProvisioner` (lines 190-214). -/
structure ProvisionCall where
  teamId : Option String
  teamName : String
  domain : String
  subdomain : String
  userName : String
  userEmail : String
  avatarUrl : Option String
  providerName : String
  providerId : String
  externalUserId : String
  accessToken : String
  refreshToken : String
  expiresIn : Nat
deriving Repr, DecidableEq

/-- The per-request inputs of one verify-callback invocation: the outcomes of
the external collaborators (userinfo fetch, JWT decode, request context,
provider store, account provisioner) together with the token parameters. -/
structure CallbackInput where
  fetchResult : Except String Claims
  decodeResult : JwtDecodeResult
  team : Option Team
  client : String
  providers : List AuthProviderRec
  accessToken : String
  refreshToken : String
  expiresIn : Nat
  provisionResult : Except OIDCError ProvisionResult
deriving Repr

/-- The outcome delivered through the `done` continuation:
`done(null, result.user, {...result, client})` on success,
`done(err, null)` on failure. -/
inductive Done where
  | success (user : String) (result : ProvisionResult) (client : String)
  | failure (err : OIDCError)
deriving Repr, DecidableEq

/-- Steps 1-4 of the verify callback (lines 81-187): everything up to and
including the construction of the `accountProvisioner` argument, returning
the trace of performed stages together with either the typed error thrown or
the provisioner payload.  Mirrors the source order: fetch, token decode,
email fallback and check, provider lookup and providerId derivation, domain
check, subdomain derivation, name and subject checks, avatar filtering. -/
def prepare (endpoints : OIDCEndpoints) (usernameClaim appName : String)
    (input : CallbackInput) : List Stage × Except OIDCError ProvisionCall :=
  match input.fetchResult with
  | .error msg => ([.fetch], .error (.upstreamError msg))
  | .ok profile =>
    let token := tokenClaims input.decodeResult
    let email := emailOf profile token
    if truthy email = false then
      ([.fetch, .decode, .emailCheck],
       .error (.authenticationError emailMissingMessage))
    else
      let emailS := email.getD ""
      let domain := (parseEmail emailS).domain
      let authenticationProvider := lookupProvider input.providers input.team domain
      let providerId := providerIdOf endpoints.authorizationURL authenticationProvider
      if truthy domain = false then
        ([.fetch, .decode, .emailCheck, .providerLookup, .domainCheck],
         .error .oidcMalformedUserInfoError)
      else
        let domainS := domain.getD ""
        let subdomain := slugifyDomain domainS
        let name := nameOf usernameClaim profile token
        let profileId := profileIdOf profile
        if truthy name = false then
          ([.fetch, .decode, .emailCheck, .providerLookup, .domainCheck,
            .subdomainDerive, .nameCheck],
           .error (.authenticationError (nameMissingMessage usernameClaim endpoints.userInfoURL)))
        else if truthy profileId = false then
          ([.fetch, .decode, .emailCheck, .providerLookup, .domainCheck,
            .subdomainDerive, .nameCheck, .subjectCheck],
           .error (.authenticationError (subjectMissingMessage endpoints.userInfoURL)))
        else
          ([.fetch, .decode, .emailCheck, .providerLookup, .domainCheck,
            .subdomainDerive, .nameCheck, .subjectCheck, .avatarFilter],
           .ok { teamId := input.team.map (·.id)
                 teamName := appName
                 domain := domainS
                 subdomain := subdomain
                 userName := name.getD ""
                 userEmail := emailS
                 avatarUrl := avatarOf profile
                 providerName := "oidc"
                 providerId := providerId
                 externalUserId := profileId.getD ""
                 accessToken := input.accessToken
                 refreshToken := input.refreshToken
                 expiresIn := input.expiresIn })

/-- A full run of the verify callback: the trace of performed stages, the
argument the provisioner was called with (if it was called), and the outcome
delivered through `done`. -/
structure RunResult where
  trace : List Stage
  provisionArg : Option ProvisionCall
  outcome : Done
deriving Repr, DecidableEq

/-- The whole verify callback (lines 80-217): steps 1-4 (`prepare`), then the
`accountProvisioner` call, then `done(null, result.user, {...result, client})`;
any thrown error reaches the `catch` and becomes `done(err, null)`. -/
def oidcCallback (endpoints : OIDCEndpoints) (usernameClaim appName : String)
    (input : CallbackInput) : RunResult :=
  match prepare endpoints usernameClaim appName input with
  | (tr, .error err) => ⟨tr, none, .failure err⟩
  | (tr, .ok call) =>
    match input.provisionResult with
    | .error err => ⟨tr ++ [.provision], some call, .failure err⟩
    | .ok res => ⟨tr ++ [.provision], some call, .success res.user res input.client⟩

/-- Whether an `Except` result is a success. -/
def isOkE {ε α : Type} : Except ε α → Bool
  | .ok _ => true
  | .error _ => false

/-- The stage trace of a run that reaches the provisioner payload. -/
def okStages : List Stage :=
  [.fetch, .decode, .emailCheck, .providerLookup, .domainCheck,
   .subdomainDerive, .nameCheck, .subjectCheck, .avatarFilter]

/-- Endpoint configuration used by the concrete evaluation examples. -/
def exEndpoints : OIDCEndpoints :=
  ⟨"https://idp.example.com/authorize", "https://idp.example.com/token",
   "https://idp.example.com/userinfo"⟩

/-- Empty userinfo profile (concrete evaluation example). -/
def exProfile1 : Claims := []

/-- Decoded ID token supplying email, subject and username (example). -/
def exToken1 : Claims :=
  [("email", "user@example.com"), ("sub", "12345"), ("preferred_username", "alice")]

/-- Userinfo profile supplying all required claims itself (example). -/
def exProfileW1 : Claims := [("email", "user@acme.io"), ("sub", "s-1"), ("name", "Ada")]

/-- Userinfo profile with email, name and subject (example). -/
def exProfile2 : Claims := [("email", "user@acme.io"), ("name", "Ada"), ("sub", "s-1")]

/-- Callback input whose profile and token both carry an email (example). -/
def exInput2a : CallbackInput :=
  { fetchResult := .ok exProfile2
    decodeResult := .decodedObject [("email", "token@acme.io")]
    team := some ⟨"t1"⟩, client := "web"
    providers := [⟨"oidc", "t1", "acme.io"⟩]
    accessToken := "at", refreshToken := "rt", expiresIn := 3600
    provisionResult := .ok ⟨"user-1", false, false⟩ }

/-- The provisioner payload produced for `exInput2a`. -/
def exCall2a : ProvisionCall :=
  { teamId := some "t1", teamName := "Outline", domain := "acme.io", subdomain := "acme"
    userName := "Ada", userEmail := "user@acme.io", avatarUrl := none
    providerName := "oidc", providerId := "acme.io", externalUserId := "s-1"
    accessToken := "at", refreshToken := "rt", expiresIn := 3600 }

/-- Callback input where neither claim source carries an email (example). -/
def exInput2b : CallbackInput :=
  { fetchResult := .ok [("name", "Ada"), ("sub", "s-1")]
    decodeResult := .decodedNull
    team := none, client := "web", providers := []
    accessToken := "at", refreshToken := "rt", expiresIn := 3600
    provisionResult := .ok ⟨"user-1", true, true⟩ }

/-- Callback input with an email but no name-like claim (example). -/
def exInput3 : CallbackInput :=
  { fetchResult := .ok [("email", "user@acme.io")]
    decodeResult := .decodedNull
    team := none, client := "web", providers := []
    accessToken := "at", refreshToken := "rt", expiresIn := 3600
    provisionResult := .ok ⟨"user-1", true, true⟩ }

/-- Userinfo profile carrying a Base64 data-URL picture (example). -/
def exProfile4 : Claims :=
  [("email", "user@acme.io"), ("name", "Ada"), ("sub", "s-1"),
   ("picture", "data:image/png;base64,iVBORw0KGgo")]

/-- Userinfo profile carrying an ordinary https picture URL (example). -/
def exProfile4b : Claims :=
  [("email", "user@acme.io"), ("name", "Ada"), ("sub", "s-1"),
   ("picture", "https://img.example.com/ada.png")]

/-- Team used by the lookup examples. -/
def exTeam : Team := ⟨"t1"⟩

/-- Stored provider whose providerId matches the incoming domain (example). -/
def exProviderAcme : AuthProviderRec := ⟨"oidc", "t1", "acme.io"⟩

/-- Stored provider whose providerId differs from the incoming domain (example). -/
def exProviderOther : AuthProviderRec := ⟨"oidc", "t1", "legacy.example"⟩

/-- Userinfo profile used by the providerId-derivation example. -/
def exProfile7 : Claims := [("email", "user@acme.io"), ("name", "Ada"), ("sub", "sub-1")]

/-- Callback input with no known team and no stored providers (example). -/
def exInput7 : CallbackInput :=
  { fetchResult := .ok exProfile7
    decodeResult := .decodedNull
    team := none, client := "web", providers := []
    accessToken := "at", refreshToken := "rt", expiresIn := 3600
    provisionResult := .ok ⟨"user-1", true, true⟩ }

/-- The provisioner payload produced for `exInput7`. -/
def exCall7 : ProvisionCall :=
  { teamId := none, teamName := "Outline", domain := "acme.io", subdomain := "acme"
    userName := "Ada", userEmail := "user@acme.io", avatarUrl := none
    providerName := "oidc", providerId := "idp.example.com", externalUserId := "sub-1"
    accessToken := "at", refreshToken := "rt", expiresIn := 3600 }

/-- Callback input whose userinfo fetch fails (example). -/
def exInput9 : CallbackInput :=
  { fetchResult := .error "userinfo fetch failed"
    decodeResult := .decodedNull
    team := none, client := "web", providers := []
    accessToken := "at", refreshToken := "rt", expiresIn := 3600
    provisionResult := .ok ⟨"user-1", true, true⟩ }

/-- Userinfo profile whose email claim is the empty string (example). -/
def exProfile10 : Claims := [("email", ""), ("name", "Ada"), ("sub", "s-1")]

/-- Decoded ID token carrying a non-empty email (example). -/
def exToken10 : Claims := [("email", "token@acme.io")]

/-! Helper lemmas shared by the claim theorems. -/

/-- A truthy optional string holds a non-empty string. -/
theorem truthy_getD_ne (o : Option String) (h : truthy o = true) : o.getD "" ≠ "" := by
  cases o with
  | none => simp [truthy] at h
  | some s => simpa [truthy] using h

/-- Nullish coalescing keeps a present left operand. -/
theorem some_orElse_eq (a : String) (o : Option String) :
    ((some a : Option String) <|> o) = some a := rfl

/-- Nullish coalescing falls through an absent left operand. -/
theorem none_orElse_eq (o : Option String) :
    ((none : Option String) <|> o) = o := rfl

/-- The trace of the pre-provisioning phase never contains the provisioner
stage: `prepare` models steps 1-4 only. -/
theorem provision_not_mem_prepare_trace (endpoints : OIDCEndpoints)
    (usernameClaim appName : String) (input : CallbackInput) :
    Stage.provision ∉ (prepare endpoints usernameClaim appName input).1 := by
  unfold prepare
  cases hf : input.fetchResult <;> dsimp only
  · simp
  · split
    · simp
    · split
      · simp
      · split
        · simp
        · split
          · simp
          · simp

/-- Characterization of a successful pre-provisioning phase: each truthiness
check passed and the payload is the record built from the derived claims. -/
theorem prepare_ok_spec (endpoints : OIDCEndpoints) (usernameClaim appName : String)
    (input : CallbackInput) (profile : Claims) (tr : List Stage) (call : ProvisionCall)
    (hfetch : input.fetchResult = .ok profile)
    (h : prepare endpoints usernameClaim appName input = (tr, .ok call)) :
    truthy (emailOf profile (tokenClaims input.decodeResult)) = true ∧
    truthy (nameOf usernameClaim profile (tokenClaims input.decodeResult)) = true ∧
    truthy (profileIdOf profile) = true ∧
    call = { teamId := input.team.map (·.id)
             teamName := appName
             domain := ((parseEmail ((emailOf profile (tokenClaims input.decodeResult)).getD "")).domain).getD ""
             subdomain := slugifyDomain (((parseEmail ((emailOf profile (tokenClaims input.decodeResult)).getD "")).domain).getD "")
             userName := (nameOf usernameClaim profile (tokenClaims input.decodeResult)).getD ""
             userEmail := (emailOf profile (tokenClaims input.decodeResult)).getD ""
             avatarUrl := avatarOf profile
             providerName := "oidc"
             providerId := providerIdOf endpoints.authorizationURL
               (lookupProvider input.providers input.team
                 (parseEmail ((emailOf profile (tokenClaims input.decodeResult)).getD "")).domain)
             externalUserId := (profileIdOf profile).getD ""
             accessToken := input.accessToken
             refreshToken := input.refreshToken
             expiresIn := input.expiresIn } := by
  unfold prepare at h
  rw [hfetch] at h
  dsimp only at h
  split at h
  · simp at h
  · split at h
    · simp at h
    · split at h
      · simp at h
      · split at h
        · simp at h
        · next hE hD hN hP =>
          simp only [Prod.mk.injEq, Except.ok.injEq] at h
          refine ⟨by simpa using hE, by simpa using hN, by simpa using hP, h.2.symm⟩

/-- A falsy merged email makes the pre-provisioning phase stop at the email
check with the missing-email error. -/
theorem prepare_email_falsy (endpoints : OIDCEndpoints) (usernameClaim appName : String)
    (input : CallbackInput) (profile : Claims)
    (hfetch : input.fetchResult = .ok profile)
    (hE : truthy (emailOf profile (tokenClaims input.decodeResult)) = false) :
    prepare endpoints usernameClaim appName input
      = ([.fetch, .decode, .emailCheck],
         .error (.authenticationError emailMissingMessage)) := by
  unfold prepare
  rw [hfetch]
  simp [hE]

/-- The pre-provisioning phase reads the decode outcome only through
`tokenClaims`. -/
theorem prepare_decode_congr (endpoints : OIDCEndpoints) (usernameClaim appName : String)
    (input : CallbackInput) (d₁ d₂ : JwtDecodeResult) (h : tokenClaims d₁ = tokenClaims d₂) :
    prepare endpoints usernameClaim appName { input with decodeResult := d₁ }
      = prepare endpoints usernameClaim appName { input with decodeResult := d₂ } := by
  unfold prepare
  dsimp only
  simp only [h]

/-- The whole callback reads the decode outcome only through `tokenClaims`. -/
theorem oidcCallback_decode_congr (endpoints : OIDCEndpoints) (usernameClaim appName : String)
    (input : CallbackInput) (d₁ d₂ : JwtDecodeResult) (h : tokenClaims d₁ = tokenClaims d₂) :
    oidcCallback endpoints usernameClaim appName { input with decodeResult := d₁ }
      = oidcCallback endpoints usernameClaim appName { input with decodeResult := d₂ } := by
  unfold oidcCallback
  dsimp only
  rw [prepare_decode_congr endpoints usernameClaim appName input d₁ d₂ h]

/-! Claim theorems. -/

/-- C5: decoding the ID token is best-effort — a decode throw, a `null`
result, or a non-object result each yield the empty claim mapping for the
token source, and the callback run is identical to a run with an empty
decoded-token object, so a decode failure alone never changes, let alone
fails, the flow. -/
theorem c5_token_decode_best_effort (msg : String) :
    tokenClaims (.decodeError msg) = [] ∧
    tokenClaims .decodedNull = [] ∧
    tokenClaims .decodedNonObject = [] ∧
    ∀ (endpoints : OIDCEndpoints) (usernameClaim appName : String) (input : CallbackInput),
      oidcCallback endpoints usernameClaim appName { input with decodeResult := .decodeError msg }
        = oidcCallback endpoints usernameClaim appName { input with decodeResult := .decodedObject [] } ∧
      oidcCallback endpoints usernameClaim appName { input with decodeResult := .decodedNull }
        = oidcCallback endpoints usernameClaim appName { input with decodeResult := .decodedObject [] } ∧
      oidcCallback endpoints usernameClaim appName { input with decodeResult := .decodedNonObject }
        = oidcCallback endpoints usernameClaim appName { input with decodeResult := .decodedObject [] } := by
  refine ⟨rfl, rfl, rfl, fun e u a input => ⟨?_, ?_, ?_⟩⟩ <;>
    exact oidcCallback_decode_congr e u a input _ _ rfl

/-- C6: the provider lookup is a two-step fallback — with no known team it
returns no stored provider; with a known team it returns the first stored
OIDC provider of that team whose providerId equals the email domain when one
exists, and otherwise falls back to the first stored OIDC provider of that
team. -/
theorem c6_provider_lookup_two_step (providers : List AuthProviderRec) (t : Team)
    (domain : Option String) :
    lookupProvider providers none domain = none ∧
    (∀ p, providers.find? (matchesExact t domain) = some p →
      lookupProvider providers (some t) domain = some p) ∧
    (providers.find? (matchesExact t domain) = none →
      lookupProvider providers (some t) domain = providers.find? (matchesTenant t)) := by
  refine ⟨rfl, ?_, ?_⟩
  · intro p hp
    simp [lookupProvider, hp]
  · intro hn
    simp [lookupProvider, hn]

/-- C6 witness: an exact-domain provider is returned as-is, and a team's
only OIDC provider is returned when its providerId differs from the
incoming domain. -/
theorem c6_witness :
    lookupProvider [exProviderAcme] (some exTeam) (some "acme.io") = some exProviderAcme ∧
    lookupProvider [exProviderOther] (some exTeam) (some "acme.io") = some exProviderOther := by
  constructor
  · exact (c6_provider_lookup_two_step [exProviderAcme] exTeam (some "acme.io")).2.1
      exProviderAcme (by decide)
  · have h := (c6_provider_lookup_two_step [exProviderOther] exTeam (some "acme.io")).2.2
      (by decide)
    rw [h]
    decide

/-- C7: the providerId attached to the login equals the stored providerId of
the found provider when the lookup found one, and otherwise the hostname of
the configured authorization endpoint URL; in particular the hostname of
https://idp.example.com/authorize is idp.example.com, and the payload handed
to the provisioner carries exactly the providerId so derived. -/
theorem c7_providerId_derivation :
    (∀ (url : String) (found : Option AuthProviderRec),
      (∀ p, found = some p → providerIdOf url found = p.providerId) ∧
      (found = none → providerIdOf url found = urlHostname url)) ∧
    urlHostname "https://idp.example.com/authorize" = "idp.example.com" ∧
    (∀ (endpoints : OIDCEndpoints) (usernameClaim appName : String) (input : CallbackInput)
      (profile : Claims) (tr : List Stage) (call : ProvisionCall),
      input.fetchResult = .ok profile →
      prepare endpoints usernameClaim appName input = (tr, .ok call) →
      call.providerId = providerIdOf endpoints.authorizationURL
        (lookupProvider input.providers input.team
          (parseEmail ((emailOf profile (tokenClaims input.decodeResult)).getD "")).domain)) := by
  refine ⟨?_, by decide, ?_⟩
  · intro url found
    constructor
    · intro p hp
      simp [providerIdOf, hp]
    · intro hn
      simp [providerIdOf, hn]
  · intro e u a input profile tr call hf h
    have hspec := prepare_ok_spec e u a input profile tr call hf h
    rw [hspec.2.2.2]

/-- C7 witness: with no known team, no stored providers and authorization
endpoint https://idp.example.com/authorize, the payload's providerId is
idp.example.com. -/
theorem c7_witness :
    exCall7.providerId = providerIdOf exEndpoints.authorizationURL
      (lookupProvider exInput7.providers exInput7.team
        (parseEmail ((emailOf exProfile7 (tokenClaims exInput7.decodeResult)).getD "")).domain) ∧
    exCall7.providerId = "idp.example.com" := by
  have h := c7_providerId_derivation.2.2 exEndpoints "preferred_username" "Outline" exInput7
    exProfile7 okStages exCall7 rfl (by decide)
  exact ⟨h, by decide⟩

/-- C8: the userinfo fetch uses POST exactly for the endpoints of the static
allow-list, which contains exactly the Dropbox userinfo endpoint, and GET
for every other endpoint. -/
theorem c8_userinfo_method (url : String) :
    (userinfoMethod url = .POST ↔ url ∈ usePostMethod) ∧
    (userinfoMethod url = .GET ↔ url ∉ usePostMethod) ∧
    usePostMethod = ["https://api.dropboxapi.com/2/openid/userinfo"] := by
  have hc : usePostMethod.contains url = true ↔ url ∈ usePostMethod := by
    constructor
    · intro h
      exact List.mem_of_elem_eq_true h
    · intro h
      exact List.elem_eq_true_of_mem h
  refine ⟨?_, ?_, rfl⟩ <;> unfold userinfoMethod <;> split <;> rename_i hsp <;> simp_all

/-- C8 witness: the Dropbox userinfo endpoint is fetched with POST, any
other endpoint with GET. -/
theorem c8_witness :
    userinfoMethod "https://api.dropboxapi.com/2/openid/userinfo" = .POST ∧
    userinfoMethod "https://idp.example.com/userinfo" = .GET := by
  constructor
  · exact (c8_userinfo_method "https://api.dropboxapi.com/2/openid/userinfo").1.mpr (by decide)
  · exact (c8_userinfo_method "https://idp.example.com/userinfo").2.1.mpr (by decide)

/-- C1 counterexample: the decoded ID token supplies a non-empty email,
subject (`sub`) and username — so at least one source supplies all three
required pieces — yet normalization fails with the missing-user-id error,
because the subject identifier is derived from the userinfo profile only. -/
theorem c1_counterexample :
    getClaim exToken1 "email" = some "user@example.com" ∧
    getClaim exToken1 "sub" = some "12345" ∧
    getClaim exToken1 "preferred_username" = some "alice" ∧
    getClaim exProfile1 "sub" = none ∧
    getClaim exProfile1 "id" = none ∧
    normalizeIdentity "preferred_username" "https://idp.example.com/userinfo"
      exProfile1 exToken1
      = .error (.authenticationError
          (subjectMissingMessage "https://idp.example.com/userinfo")) := by
  decide

/-- C1 (amended): when the merged email (profile first, then token) is
non-empty, the userinfo profile itself supplies a non-empty `sub`-or-`id`
subject identifier, and the display-name chain (profile `name`, else the
configured username claim read from profile then token, else profile
`username`) is non-empty, normalization succeeds and the three required
fields of the canonical identity are non-empty; a subject identifier
supplied only by the decoded ID token does not suffice. -/
theorem c1_normalization_success (usernameClaim userInfoURL : String) (profile token : Claims)
    (hE : truthy (emailOf profile token) = true)
    (hP : truthy (profileIdOf profile) = true)
    (hN : truthy (nameOf usernameClaim profile token) = true) :
    ∃ ident, normalizeIdentity usernameClaim userInfoURL profile token = .ok ident ∧
      ident.email ≠ "" ∧ ident.externalUserId ≠ "" ∧ ident.displayName ≠ "" := by
  refine ⟨⟨(emailOf profile token).getD "", (profileIdOf profile).getD "",
    (nameOf usernameClaim profile token).getD "",
    usernameOf usernameClaim profile token, avatarOf profile⟩, ?_, ?_, ?_, ?_⟩
  · unfold normalizeIdentity
    simp [hE, hN, hP]
  · exact truthy_getD_ne _ hE
  · exact truthy_getD_ne _ hP
  · exact truthy_getD_ne _ hN

/-- C1 witness: a profile supplying email, sub and name normalizes
successfully. -/
theorem c1_witness :
    isOkE (normalizeIdentity "preferred_username" "https://idp.example.com/userinfo"
      exProfileW1 []) = true := by
  obtain ⟨ident, hok, -, -, -⟩ := c1_normalization_success "preferred_username"
    "https://idp.example.com/userinfo" exProfileW1 [] (by decide) (by decide) (by decide)
  rw [hok]
  rfl

/-- C2: when the payload reaches the provisioner its email is the profile's
email when that claim is present, and otherwise the decoded token's email;
when neither source supplies an email the run fails with the missing-email
`AuthenticationError` and never proceeds to provisioning. -/
theorem c2_email_precedence (endpoints : OIDCEndpoints) (usernameClaim appName : String)
    (input : CallbackInput) (profile : Claims)
    (hfetch : input.fetchResult = .ok profile) :
    (∀ (tr : List Stage) (call : ProvisionCall),
      prepare endpoints usernameClaim appName input = (tr, .ok call) →
      (∃ e, getClaim profile "email" = some e ∧ call.userEmail = e) ∨
      (getClaim profile "email" = none ∧
        ∃ e, getClaim (tokenClaims input.decodeResult) "email" = some e ∧ call.userEmail = e)) ∧
    (getClaim profile "email" = none →
      getClaim (tokenClaims input.decodeResult) "email" = none →
      (oidcCallback endpoints usernameClaim appName input).outcome
        = .failure (.authenticationError emailMissingMessage) ∧
      (oidcCallback endpoints usernameClaim appName input).provisionArg = none ∧
      Stage.provision ∉ (oidcCallback endpoints usernameClaim appName input).trace) := by
  constructor
  · intro tr call h
    obtain ⟨hE, -, -, hcall⟩ := prepare_ok_spec endpoints usernameClaim appName input
      profile tr call hfetch h
    cases hpe : getClaim profile "email" with
    | some e =>
      left
      refine ⟨e, rfl, ?_⟩
      rw [hcall]
      show (emailOf profile (tokenClaims input.decodeResult)).getD "" = e
      rw [emailOf, hpe, some_orElse_eq]
      rfl
    | none =>
      right
      have hEmail : emailOf profile (tokenClaims input.decodeResult)
          = getClaim (tokenClaims input.decodeResult) "email" := by
        rw [emailOf, hpe, none_orElse_eq]
      rw [hEmail] at hE
      cases hte : getClaim (tokenClaims input.decodeResult) "email" with
      | none =>
        rw [hte] at hE
        simp [truthy] at hE
      | some e =>
        refine ⟨rfl, e, rfl, ?_⟩
        rw [hcall]
        show (emailOf profile (tokenClaims input.decodeResult)).getD "" = e
        rw [hEmail, hte]
        rfl
  · intro h1 h2
    have hE : truthy (emailOf profile (tokenClaims input.decodeResult)) = false := by
      rw [emailOf, h1, none_orElse_eq, h2]
      rfl
    have hp := prepare_email_falsy endpoints usernameClaim appName input profile hfetch hE
    unfold oidcCallback
    rw [hp]
    exact ⟨rfl, rfl, by simp⟩

/-- C2 witness: with both sources supplying an email the profile's email is
used; with neither, the run fails with the missing-email error and the
provisioner is never called. -/
theorem c2_witness :
    exCall2a.userEmail = "user@acme.io" ∧
    (oidcCallback exEndpoints "preferred_username" "Outline" exInput2b).outcome
      = .failure (.authenticationError emailMissingMessage) ∧
    (oidcCallback exEndpoints "preferred_username" "Outline" exInput2b).provisionArg = none := by
  have hpair := c2_email_precedence exEndpoints "preferred_username" "Outline" exInput2a
    exProfile2 rfl
  have h1 := hpair.1 okStages exCall2a (by decide)
  have hmain := c2_email_precedence exEndpoints "preferred_username" "Outline" exInput2b
    [("name", "Ada"), ("sub", "s-1")] rfl
  have h2 := hmain.2 (by decide) (by decide)
  refine ⟨?_, h2.1, h2.2.1⟩
  rcases h1 with ⟨e, he, hu⟩ | ⟨hnone, -⟩
  · have hpe : getClaim exProfile2 "email" = some "user@acme.io" := by decide
    rw [hpe] at he
    rw [hu]
    exact (Option.some.inj he).symm
  · exact absurd hnone (by decide)

/-- C3 counterexample: a profile carrying only an email fails the name check,
but only after the provider lookup and the subdomain derivation were already
performed — the reconciliation does not fail before reaching the
tenant/provider resolver. -/
theorem c3_counterexample :
    (oidcCallback exEndpoints "preferred_username" "Outline" exInput3).provisionArg = none ∧
    (oidcCallback exEndpoints "preferred_username" "Outline" exInput3).outcome
      = .failure (.authenticationError
          (nameMissingMessage "preferred_username" exEndpoints.userInfoURL)) ∧
    Stage.providerLookup
      ∈ (oidcCallback exEndpoints "preferred_username" "Outline" exInput3).trace ∧
    Stage.subdomainDerive
      ∈ (oidcCallback exEndpoints "preferred_username" "Outline" exInput3).trace := by
  decide

/-- C3 (amended): for every input, either the payload handed to the Account
Provisioner has all three required fields (email, display name, external
subject id) non-empty, or the reconciliation fails with a typed error before
calling the Account Provisioner; only the email check, however, precedes the
tenant/provider resolver. -/
theorem c3_required_fields_or_fail (endpoints : OIDCEndpoints)
    (usernameClaim appName : String) (input : CallbackInput) :
    (∃ call, (oidcCallback endpoints usernameClaim appName input).provisionArg = some call ∧
      call.userEmail ≠ "" ∧ call.userName ≠ "" ∧ call.externalUserId ≠ "") ∨
    ((∃ err, (oidcCallback endpoints usernameClaim appName input).outcome = .failure err) ∧
      (oidcCallback endpoints usernameClaim appName input).provisionArg = none ∧
      Stage.provision ∉ (oidcCallback endpoints usernameClaim appName input).trace) := by
  rcases hp : prepare endpoints usernameClaim appName input with ⟨tr, r⟩
  cases r with
  | error err =>
    right
    have hmem := provision_not_mem_prepare_trace endpoints usernameClaim appName input
    rw [hp] at hmem
    unfold oidcCallback
    rw [hp]
    exact ⟨⟨err, rfl⟩, rfl, hmem⟩
  | ok call =>
    left
    cases hf : input.fetchResult with
    | error m =>
      unfold prepare at hp
      rw [hf] at hp
      simp at hp
    | ok profile =>
      obtain ⟨hE, hN, hP, hcall⟩ := prepare_ok_spec endpoints usernameClaim appName input
        profile tr call hf hp
      refine ⟨call, ?_, ?_, ?_, ?_⟩
      · unfold oidcCallback
        rw [hp]
        cases hpr : input.provisionResult <;> rfl
      · rw [hcall]
        exact truthy_getD_ne _ hE
      · rw [hcall]
        exact truthy_getD_ne _ hN
      · rw [hcall]
        exact truthy_getD_ne _ hP

/-- C4: a picture claim detected as a Base64 data URL is replaced by null
while a picture not so detected is passed through unchanged; success of
normalization is exactly the conjunction of the email, name and subject
truthiness checks — so the Base64 condition never by itself causes the
reconciliation to fail — and the identity's avatarUrl is always the
filtered picture. -/
theorem c4_avatar_filtering (usernameClaim userInfoURL : String) (profile token : Claims)
    (p : String) :
    (getClaim profile "picture" = some p →
      (isBase64Url p = true → avatarOf profile = none) ∧
      (isBase64Url p = false → avatarOf profile = some p)) ∧
    isOkE (normalizeIdentity usernameClaim userInfoURL profile token)
      = (truthy (emailOf profile token) &&
         (truthy (nameOf usernameClaim profile token) && truthy (profileIdOf profile))) ∧
    (∀ ident, normalizeIdentity usernameClaim userInfoURL profile token = .ok ident →
      ident.avatarUrl = avatarOf profile) := by
  refine ⟨?_, ?_, ?_⟩
  · intro hpic
    constructor
    · intro hb
      have hp0 : p ≠ "" := by
        intro h0
        rw [h0] at hb
        exact absurd hb (by decide)
      unfold avatarOf
      rw [hpic]
      simp [truthy, bne_iff_ne, hp0, hb]
    · intro hb
      unfold avatarOf
      rw [hpic]
      simp [hb]
  · cases hE : truthy (emailOf profile token) <;>
      cases hN : truthy (nameOf usernameClaim profile token) <;>
      cases hP : truthy (profileIdOf profile) <;>
      simp [normalizeIdentity, isOkE, hE, hN, hP]
  · intro ident h
    unfold normalizeIdentity at h
    dsimp only at h
    split at h
    · simp at h
    · split at h
      · simp at h
      · split at h
        · simp at h
        · simp only [Except.ok.injEq] at h
          rw [← h]

/-- C4 witness: a Base64 data-URL picture is filtered to null, an https
picture URL is passed through. -/
theorem c4_witness :
    avatarOf exProfile4 = none ∧
    avatarOf exProfile4b = some "https://img.example.com/ada.png" := by
  constructor
  · exact ((c4_avatar_filtering "preferred_username" "https://idp.example.com/userinfo"
      exProfile4 [] "data:image/png;base64,iVBORw0KGgo").1 (by decide)).1 (by decide)
  · exact ((c4_avatar_filtering "preferred_username" "https://idp.example.com/userinfo"
      exProfile4b [] "https://img.example.com/ada.png").1 (by decide)).2 (by decide)

/-- C9: whenever steps 1-4 fail — the pre-provisioning phase returns a typed
error — the callback terminates without calling the Account Provisioner and
delivers exactly that error through the failure continuation, never through
the success continuation. -/
theorem c9_failure_no_provision (endpoints : OIDCEndpoints)
    (usernameClaim appName : String) (input : CallbackInput)
    (tr : List Stage) (err : OIDCError)
    (h : prepare endpoints usernameClaim appName input = (tr, .error err)) :
    (oidcCallback endpoints usernameClaim appName input).provisionArg = none ∧
    Stage.provision ∉ (oidcCallback endpoints usernameClaim appName input).trace ∧
    (oidcCallback endpoints usernameClaim appName input).outcome = .failure err ∧
    ∀ (u : String) (res : ProvisionResult) (c : String),
      (oidcCallback endpoints usernameClaim appName input).outcome ≠ .success u res c := by
  have hmem := provision_not_mem_prepare_trace endpoints usernameClaim appName input
  rw [h] at hmem
  unfold oidcCallback
  rw [h]
  refine ⟨rfl, hmem, rfl, ?_⟩
  intro u res c hq
  simp at hq

/-- C9 witness: a failing userinfo fetch reaches the failure continuation
with the upstream error and the provisioner is never called. -/
theorem c9_witness :
    (oidcCallback exEndpoints "preferred_username" "Outline" exInput9).provisionArg = none ∧
    Stage.provision ∉ (oidcCallback exEndpoints "preferred_username" "Outline" exInput9).trace ∧
    (oidcCallback exEndpoints "preferred_username" "Outline" exInput9).outcome
      = .failure (.upstreamError "userinfo fetch failed") := by
  have h := c9_failure_no_provision exEndpoints "preferred_username" "Outline" exInput9
    [Stage.fetch] (.upstreamError "userinfo fetch failed") (by decide)
  exact ⟨h.1, h.2.1, h.2.2.1⟩

/-- C10: an empty-string profile email is present for the nullish fallback
but fails the truthiness check, so reconciliation fails with the
missing-email error even when the decoded token carries a non-empty email,
and provisioning is never reached. -/
theorem c10_empty_email_no_fallback (usernameClaim userInfoURL : String)
    (profile token : Claims)
    (hpe : getClaim profile "email" = some "") :
    normalizeIdentity usernameClaim userInfoURL profile token
      = .error (.authenticationError emailMissingMessage) ∧
    (∀ (endpoints : OIDCEndpoints) (appName : String) (input : CallbackInput),
      input.fetchResult = .ok profile →
      tokenClaims input.decodeResult = token →
      (oidcCallback endpoints usernameClaim appName input).outcome
        = .failure (.authenticationError emailMissingMessage) ∧
      (oidcCallback endpoints usernameClaim appName input).provisionArg = none) := by
  have hE : emailOf profile token = some "" := by
    rw [emailOf, hpe, some_orElse_eq]
  have hT : truthy (emailOf profile token) = false := by
    rw [hE]
    rfl
  constructor
  · unfold normalizeIdentity
    simp [hT]
  · intro endpoints appName input hf hd
    have hp := prepare_email_falsy endpoints usernameClaim appName input profile hf
      (by rw [hd]; exact hT)
    unfold oidcCallback
    rw [hp]
    exact ⟨rfl, rfl⟩

/-- C10 witness: profile email present but empty and token email non-empty
still fail with the missing-email error. -/
theorem c10_witness :
    getClaim exToken10 "email" = some "token@acme.io" ∧
    normalizeIdentity "preferred_username" "https://idp.example.com/userinfo"
      exProfile10 exToken10
      = .error (.authenticationError emailMissingMessage) := by
  refine ⟨by decide, ?_⟩
  exact (c10_empty_email_no_fallback "preferred_username"
    "https://idp.example.com/userinfo" exProfile10 exToken10 (by decide)).1

end OIDC
